import Mathlib

/-!
Verification development for the `cam_exploration` exploration node
(`src/cam_exploration.cpp`).

The node is a single control loop (`spin`) driven by ROS callbacks.  We give a
shallow embedding of its decision logic:

* external collaborators (`MapServer`, `RobotMotion`, `Replaner`, the goal
  selector strategy) are modelled as per-tick oracle inputs, since only their
  call results influence the loop's control flow;
* the loop locals `first_time` and `exploration_finished`, together with the
  `ros::shutdown` request issued by `finish()`, form the loop state;
* the effects the loop performs on a tick (goal dispatch via `robot.goTo`,
  cancellation via `robot.cancelGoal`, the pose-refresh attempt, the warning
  log, the goal scan) are recorded in an explicit per-tick output record.

Machine reals inside `geometry_msgs::Pose` are opaque to the control flow
(the loop never inspects a coordinate), so poses are modelled as records of
integers carrying identity only.
-/

namespace CamExploration

/-- A pose (`geometry_msgs::Pose`).  The control loop treats poses as opaque
data: it only passes them from the goal selector to `robot.goTo`.  We model
the payload by integer fields carrying identity. -/
structure Pose where
  px : Int
  py : Int
  deriving DecidableEq

/-- One frontier of the occupancy grid (`FrontierCell` of `FrontiersMap`):
an identifier plus its list of boundary points (`f_it->points`). -/
structure Frontier where
  fid : Nat
  points : List Pose
  deriving DecidableEq

/-- The goal selector strategy interface
(`goal_selector->decideGoal(frontier, goal)`): given one frontier it either
accepts it, producing a goal pose (`some`), or declines it (`none`). -/
def GoalSelector : Type := Frontier → Option Pose

/-- Shallow embedding of `decideGoal()` (`cam_exploration.cpp`, lines 68-80):

```
FrontiersMap::const_iterator f_it = fmap.begin();
while(!goal_selector->decideGoal(*f_it, goal)){ f_it++; }
```

The loop walks `fmap` from `begin()` and stops at the first accepted
frontier, returning the goal pose together with the accepted frontier
(whose points are then published as a marker).  The C++ loop has **no
end-of-sequence check**: when every frontier is declined (in particular when
`fmap` is empty) the iterator is incremented past `end()` and dereferenced,
which is undefined behaviour.  We model that run-off-the-end dereference by
the `none` result. -/
def decideGoal (goal_selector : GoalSelector) : List Frontier → Option (Frontier × Pose)
  | [] => none
  | f :: fs =>
    match goal_selector f with
    | some goal => some (f, goal)
    | none => decideGoal goal_selector fs

/-- Instrumented variant of `decideGoal` that additionally records, in order,
every frontier that was passed to `goal_selector->decideGoal` before the scan
stopped (or ran off the end).  Used to state which frontiers were evaluated. -/
def decideGoalTrace (goal_selector : GoalSelector) :
    List Frontier → List Frontier × Option (Frontier × Pose)
  | [] => ([], none)
  | f :: fs =>
    match goal_selector f with
    | some goal => ([f], some (f, goal))
    | none =>
      let r := decideGoalTrace goal_selector fs
      (f :: r.1, r.2)

/-- The goal selector strategies known to the node.  The source recognises
exactly one name, `"mid_point"` (`new midPoint()`). -/
inductive SelectorKind where
  | midPoint
  deriving DecidableEq

/-- Shallow embedding of the `decideGoal` setup block of `spin`
(`cam_exploration.cpp`, lines 149-161).  The input is the value of the
parameter `goal_selector/type` (`none` when the parameter is not set).
Result: the selector installed in the global `goal_selector` pointer
(`none` = the pointer is left unset), paired with whether a configuration
error was reported via `ROS_ERROR`.  Note that the source only logs the
error; control falls through to the main loop in every case. -/
def setupGoalSelector : Option String → Option SelectorKind × Bool
  | some name =>
    if name = "mid_point" then (some SelectorKind.midPoint, false)
    else (none, true)
  | none => (none, true)

/-- The per-tick oracle inputs of the `spin` loop: results of the external
collaborator calls made during one iteration of `while (ros::ok())`.

`mapReceived` is modelled from the spec: `MapServer::mapReceived()` /
`setMapReceived()` are not part of this translation unit; per the spec's
state machine, the flag is true on every tick from the first map update
onward (`WaitingForMap → Exploring` fires on the first tick where the
frontier set has received at least one update). -/
structure TickInput where
  /-- Modelled from the spec: result of `mapServer.mapReceived()` — at least
  one map update has been received by this tick. -/
  mapReceived : Bool
  /-- Result of `robot.refreshPose()`. -/
  poseOk : Bool
  /-- Result of `replaner.replan()`. -/
  replanVerdict : Bool
  /-- Result of `robot.isMoving()` (queried by `finish()`). -/
  isMoving : Bool
  /-- Contents of the global `fmap` at this tick, as last written by the
  `getFrontiers` callback during `ros::spinOnce()`. -/
  frontiers : List Frontier
  deriving DecidableEq

/-- The mutable state the loop body reads and writes: the locals
`first_time` and `exploration_finished` of `spin`, plus whether
`ros::shutdown()` has been requested (after which `ros::ok()` is false and
the loop exits). -/
structure LoopState where
  first_time : Bool
  exploration_finished : Bool
  shutdown : Bool
  deriving DecidableEq

/-- `spin`'s loop state at entry (lines 183-184):
`first_time = true`, `exploration_finished = false`, no shutdown requested. -/
def initLoopState : LoopState :=
  { first_time := true, exploration_finished := false, shutdown := false }

/-- Observable effects of one iteration of the `spin` loop body. -/
structure TickOutput where
  /-- Argument of `robot.goTo(...)` if a goal was dispatched this tick. -/
  dispatched : Option Pose
  /-- Whether `robot.cancelGoal()` was called this tick (only by `finish()`). -/
  canceled : Bool
  /-- Whether `robot.refreshPose()` was called this tick. -/
  poseRefreshAttempted : Bool
  /-- Whether `ROS_WARN("Couldn't get robot position!")` was emitted. -/
  poseWarned : Bool
  /-- Whether `decideGoal()` was invoked (a goal scan was attempted). -/
  scanAttempted : Bool
  /-- Whether the goal scan dereferenced the frontier iterator past the end
  (the undefined behaviour of `decideGoal()` when every frontier declines). -/
  scanRanOffEnd : Bool
  deriving DecidableEq

/-- Output of a tick in which the loop body performed no collaborator call
(`mapReceived` false: only `ROS_INFO_ONCE("Waiting for first map")`). -/
def silentTick : TickOutput :=
  { dispatched := none, canceled := false, poseRefreshAttempted := false,
    poseWarned := false, scanAttempted := false, scanRanOffEnd := false }

/-- Output of an Exploring tick whose pose refresh failed: only
`ROS_WARN("Couldn't get robot position!")` is emitted. -/
def poseFailTick : TickOutput :=
  { dispatched := none, canceled := false, poseRefreshAttempted := true,
    poseWarned := true, scanAttempted := false, scanRanOffEnd := false }

/-- Output of the tick on which `finish()` runs: `robot.cancelGoal()` is
called exactly when the robot is moving, then `ros::shutdown()`. -/
def finishTick (moving : Bool) : TickOutput :=
  { dispatched := none, canceled := moving, poseRefreshAttempted := false,
    poseWarned := false, scanAttempted := false, scanRanOffEnd := false }

/-- Shallow embedding of one iteration of the body of `spin`'s
`while (ros::ok())` loop (`cam_exploration.cpp`, lines 185-218), given the
installed goal selector, the current loop state and the tick's oracle inputs:

* `mapReceived` false: log only, nothing else happens;
* `exploration_finished` true: `finish()` runs — `cancelGoal` iff the robot
  is moving, then `ros::shutdown()`;
* otherwise `robot.refreshPose()` is attempted; on failure only a warning is
  logged; on success, if `replaner.replan() || first_time`, then `first_time`
  is cleared and `robot.goTo(decideGoal())` dispatches the scanned goal —
  unless the scan runs off the end of the frontier sequence, which is the
  undefined-behaviour crash recorded in `scanRanOffEnd`. -/
def spinTick (sel : GoalSelector) (s : LoopState) (i : TickInput) :
    LoopState × TickOutput :=
  if i.mapReceived then
    if s.exploration_finished then
      ({ s with shutdown := true }, finishTick i.isMoving)
    else
      if i.poseOk then
        if i.replanVerdict || s.first_time then
          let s1 := { s with first_time := false }
          match decideGoal sel i.frontiers with
          | some fg =>
            (s1, { dispatched := some fg.2, canceled := false,
                   poseRefreshAttempted := true, poseWarned := false,
                   scanAttempted := true, scanRanOffEnd := false })
          | none =>
            (s1, { dispatched := none, canceled := false,
                   poseRefreshAttempted := true, poseWarned := false,
                   scanAttempted := true, scanRanOffEnd := true })
        else
          (s, { dispatched := none, canceled := false,
                poseRefreshAttempted := true, poseWarned := false,
                scanAttempted := false, scanRanOffEnd := false })
      else
        (s, poseFailTick)
  else
    (s, silentTick)

/-- The `spin` loop run over a finite stream of tick inputs (the stream ends
when `ros::ok()` turns false externally).  The loop exits at the top of an
iteration once `ros::shutdown()` was requested by `finish()`, and the run is
truncated when a tick hits the scan's undefined-behaviour crash.  Returns the
final loop state and the list of (input, output) pairs of the executed
ticks. -/
def spinLoop (sel : GoalSelector) :
    LoopState → List TickInput → LoopState × List (TickInput × TickOutput)
  | s, [] => (s, [])
  | s, i :: is =>
    if s.shutdown then (s, [])
    else
      let so := spinTick sel s i
      if so.2.scanRanOffEnd then (so.1, [(i, so.2)])
      else
        let r := spinLoop sel so.1 is
        (r.1, (i, so.2) :: r.2)

/-- Shallow embedding of the startup-then-loop structure of `spin`: the goal
selector is configured from the `goal_selector/type` parameter, and — whether
or not that configuration succeeded — control falls through into the main
loop.  `midSel` is the behaviour of the `midPoint` strategy (defined outside
this translation unit); when no selector was installed, the global
`goal_selector` pointer is unset and any invocation of it aborts the tick,
which we model by a selector that accepts nothing, so that a goal scan
crashes (truncating the run) instead of producing a goal.  Returns whether a
configuration error was reported, together with the executed ticks. -/
def spinRun (param : Option String) (midSel : GoalSelector)
    (s : LoopState) (inputs : List TickInput) :
    Bool × List (TickInput × TickOutput) :=
  let cfg := setupGoalSelector param
  let sel : GoalSelector :=
    match cfg.1 with
    | some SelectorKind.midPoint => midSel
    | none => fun _ => none
  (cfg.2, (spinLoop sel s inputs).2)

/-! ### Concrete fixtures used by witnesses -/

/-- A concrete pose. -/
def poseA : Pose := { px := 1, py := 2 }

/-- A concrete frontier. -/
def fA : Frontier := { fid := 1, points := [poseA] }

/-- A concrete frontier. -/
def fB : Frontier := { fid := 2, points := [poseA] }

/-- A concrete frontier. -/
def fC : Frontier := { fid := 3, points := [] }

/-- A selector that declines every frontier. -/
def declineAll : GoalSelector := fun _ => none

/-- A selector that accepts every frontier with goal `poseA`. -/
def acceptAll : GoalSelector := fun _ => some poseA

/-- A selector that accepts exactly the frontiers with identifier `2`. -/
def acceptSecond : GoalSelector := fun f => if f.fid = 2 then some poseA else none

/-- A selector extensionally equal to `acceptSecond` but written differently. -/
def acceptSecondAlt : GoalSelector :=
  fun f => if 2 ≤ f.fid ∧ f.fid ≤ 2 then some poseA else none

/-- A state in which exploration has been flagged finished. -/
def finishedState : LoopState :=
  { first_time := false, exploration_finished := true, shutdown := false }

/-- An Exploring tick input whose pose refresh fails. -/
def poseFailInput : TickInput :=
  { mapReceived := true, poseOk := false, replanVerdict := true,
    isMoving := false, frontiers := [] }

/-- A tick input on which no map has been received yet. -/
def noMapInput : TickInput :=
  { mapReceived := false, poseOk := true, replanVerdict := true,
    isMoving := false, frontiers := [] }

/-- A successful Exploring tick input with one frontier. -/
def goodInput : TickInput :=
  { mapReceived := true, poseOk := true, replanVerdict := false,
    isMoving := false, frontiers := [fA] }

/-- A successful Exploring tick input with a true replanning verdict. -/
def replanInput : TickInput :=
  { mapReceived := true, poseOk := true, replanVerdict := true,
    isMoving := false, frontiers := [fA] }

/-- A tick input with the robot moving (used at the finish transition). -/
def movingInput : TickInput :=
  { mapReceived := true, poseOk := true, replanVerdict := false,
    isMoving := true, frontiers := [] }

/-- The output of a tick that scans `[fA]` under `acceptAll` and dispatches. -/
def dispatchOut : TickOutput :=
  { dispatched := some poseA, canceled := false, poseRefreshAttempted := true,
    poseWarned := false, scanAttempted := true, scanRanOffEnd := false }

/-! ### Helper lemmas about the embedding -/

/-- The instrumented scan computes the same result as `decideGoal`. -/
theorem decideGoalTrace_snd (goal_selector : GoalSelector) (fs : List Frontier) :
    (decideGoalTrace goal_selector fs).2 = decideGoal goal_selector fs := by
  induction fs with
  | nil => rfl
  | cons f fs ih =>
    simp only [decideGoalTrace, decideGoal]
    cases goal_selector f <;> simp [ih]

/-- Once `ros::shutdown()` has been requested, the loop executes no tick. -/
theorem spinLoop_of_shutdown (sel : GoalSelector) (s : LoopState)
    (l : List TickInput) (h : s.shutdown = true) : spinLoop sel s l = (s, []) := by
  cases l with
  | nil => rfl
  | cons i is => simp [spinLoop, h]

/-- A tick never sets `first_time` back to true. -/
theorem spinTick_keeps_first_time_false (sel : GoalSelector) (s : LoopState)
    (i : TickInput) (h : s.first_time = false) :
    (spinTick sel s i).1.first_time = false := by
  cases hm : i.mapReceived <;>
    cases hfin : s.exploration_finished <;>
      cases hp : i.poseOk <;>
        cases hr : i.replanVerdict <;>
          cases hscan : decideGoal sel i.frontiers <;>
            simp [spinTick, hm, hfin, hp, hr, hscan, h]

/-- A tick that dispatches a goal leaves `first_time` cleared. -/
theorem spinTick_dispatch_clears_first_time (sel : GoalSelector) (s : LoopState)
    (i : TickInput) (h : (spinTick sel s i).2.dispatched.isSome = true) :
    (spinTick sel s i).1.first_time = false := by
  cases hm : i.mapReceived <;>
    cases hfin : s.exploration_finished <;>
      cases hp : i.poseOk <;>
        cases hr : i.replanVerdict <;>
          cases hft : s.first_time <;>
            cases hscan : decideGoal sel i.frontiers <;>
              simp [spinTick, silentTick, poseFailTick, finishTick,
                    hm, hfin, hp, hr, hft, hscan] at h ⊢

/-- A tick that dispatches while `first_time` is already cleared can only
have taken the scan branch through a true replanning verdict. -/
theorem spinTick_dispatch_needs_replan (sel : GoalSelector) (s : LoopState)
    (i : TickInput) (hft : s.first_time = false)
    (h : (spinTick sel s i).2.dispatched.isSome = true) :
    i.replanVerdict = true := by
  cases hr : i.replanVerdict
  · exfalso
    cases hm : i.mapReceived <;>
      cases hfin : s.exploration_finished <;>
        cases hp : i.poseOk <;>
          simp [spinTick, silentTick, poseFailTick, finishTick,
                hm, hfin, hp, hr, hft] at h
  · rfl

/-- In a run started with `first_time` cleared, every dispatching tick has a
true replanning verdict. -/
theorem spinLoop_dispatch_replan_aux (sel : GoalSelector) (inputs : List TickInput) :
    ∀ s : LoopState, s.first_time = false →
      ∀ p ∈ (spinLoop sel s inputs).2,
        p.2.dispatched.isSome = true → p.1.replanVerdict = true := by
  induction inputs with
  | nil =>
    intro s _ p hp
    simp [spinLoop] at hp
  | cons i is ih =>
    intro s hs p hp hd
    cases hsd : s.shutdown with
    | true => simp [spinLoop, hsd] at hp
    | false =>
      simp only [spinLoop, hsd, Bool.false_eq_true, if_false] at hp
      cases hcr : (spinTick sel s i).2.scanRanOffEnd with
      | true =>
        simp only [hcr, if_true, List.mem_singleton] at hp
        subst hp
        exact spinTick_dispatch_needs_replan sel s i hs hd
      | false =>
        simp only [hcr, Bool.false_eq_true, if_false, List.mem_cons] at hp
        rcases hp with hp | hp
        · subst hp
          exact spinTick_dispatch_needs_replan sel s i hs hd
        · exact ih (spinTick sel s i).1
            (spinTick_keeps_first_time_false sel s i hs) p hp hd

/-- Every tick strictly after a dispatching tick of a run dispatches only
with a true replanning verdict (the dispatching tick cleared `first_time`,
and it stays cleared). -/
theorem spinLoop_suffix_after_dispatch (sel : GoalSelector) (inputs : List TickInput) :
    ∀ (s : LoopState) (pre : List (TickInput × TickOutput))
      (p : TickInput × TickOutput) (tl : List (TickInput × TickOutput)),
      (spinLoop sel s inputs).2 = pre ++ p :: tl →
      p.2.dispatched.isSome = true →
      ∀ q ∈ tl, q.2.dispatched.isSome = true → q.1.replanVerdict = true := by
  induction inputs with
  | nil =>
    intro s pre p tl hrun
    simp only [spinLoop] at hrun
    exact absurd hrun.symm (List.append_ne_nil_of_right_ne_nil pre (by simp))
  | cons i is ih =>
    intro s pre p tl hrun hd q hq hqd
    cases hsd : s.shutdown with
    | true =>
      rw [spinLoop_of_shutdown sel s (i :: is) hsd] at hrun
      exact absurd hrun.symm (List.append_ne_nil_of_right_ne_nil pre (by simp))
    | false =>
      simp only [spinLoop, hsd, Bool.false_eq_true, if_false] at hrun
      cases hcr : (spinTick sel s i).2.scanRanOffEnd with
      | true =>
        simp only [hcr, if_true] at hrun
        cases pre with
        | nil =>
          simp only [List.nil_append, List.cons.injEq] at hrun
          rw [← hrun.2] at hq
          simp at hq
        | cons x xs =>
          simp only [List.cons_append, List.cons.injEq] at hrun
          exact absurd hrun.2.symm (List.append_ne_nil_of_right_ne_nil xs (by simp))
      | false =>
        simp only [hcr, Bool.false_eq_true, if_false] at hrun
        cases pre with
        | nil =>
          simp only [List.nil_append, List.cons.injEq] at hrun
          have hft1 : (spinTick sel s i).1.first_time = false := by
            apply spinTick_dispatch_clears_first_time sel s i
            rw [← hrun.1] at hd
            exact hd
          exact spinLoop_dispatch_replan_aux sel is (spinTick sel s i).1 hft1 q
            (by rw [hrun.2]; exact hq) hqd
        | cons x xs =>
          simp only [List.cons_append, List.cons.injEq] at hrun
          exact ih (spinTick sel s i).1 xs p tl hrun.2 hd q hq hqd

/-- On ticks in the Exploring state where the pose refresh fails or no map
has been received, the loop executes without changing its state, scanning or
dispatching: each such tick yields the pose-failure or the waiting output. -/
theorem spinLoop_skipped_ticks (sel : GoalSelector) (inputs : List TickInput) :
    ∀ s : LoopState, s.exploration_finished = false → s.shutdown = false →
      (∀ i ∈ inputs, i.mapReceived = false ∨ i.poseOk = false) →
      spinLoop sel s inputs =
        (s, inputs.map fun i =>
          (i, if i.mapReceived then poseFailTick else silentTick)) := by
  induction inputs with
  | nil => intro s _ _ _; rfl
  | cons i is ih =>
    intro s hfin hsd h
    have hi := h i (List.mem_cons_self i is)
    have his : ∀ j ∈ is, j.mapReceived = false ∨ j.poseOk = false :=
      fun j hj => h j (List.mem_cons_of_mem i hj)
    cases hm : i.mapReceived with
    | false =>
      have htick : spinTick sel s i = (s, silentTick) := by simp [spinTick, hm]
      simp [spinLoop, hsd, htick, silentTick, ih s hfin hsd his, hm]
    | true =>
      have hp : i.poseOk = false := by
        rcases hi with h1 | h1
        · rw [hm] at h1; exact absurd h1 (by simp)
        · exact h1
      have htick : spinTick sel s i = (s, poseFailTick) := by
        simp [spinTick, hm, hfin, hp]
      simp [spinLoop, hsd, htick, poseFailTick, ih s hfin hsd his, hm]

/-! ### Scan-level claims -/

/-- Claim C1 (code bug): on an Exploring tick whose goal scan is reached with
an empty frontier set — so the selector accepts nothing — the scan does NOT
terminate gracefully with "no accepted goal": `decideGoal`'s loop has no
end-of-sequence check, so it dereferences the iterator past the end
(undefined behaviour, `scanRanOffEnd`), contradicting the claim that no
error or abort occurs.  Evaluated at the concrete failing input: first
Exploring tick (`first_time` forces the scan), pose refresh succeeded,
`fmap = []`. -/
theorem scan_with_no_acceptable_frontier_runs_off_end :
    decideGoal declineAll [] = none ∧
    decideGoal declineAll [fA, fB, fC] = none ∧
    (spinTick declineAll initLoopState
      { mapReceived := true, poseOk := true, replanVerdict := false,
        isMoving := false, frontiers := [] }).2.scanRanOffEnd = true ∧
    (spinTick declineAll initLoopState
      { mapReceived := true, poseOk := true, replanVerdict := false,
        isMoving := false, frontiers := [] }).2.dispatched = none := by
  refine ⟨rfl, rfl, rfl, rfl⟩

/-- Claim C6: the goal scan visits frontiers in the order of the frontier
set and commits the goal derived from the first accepted frontier; the
frontiers evaluated are exactly the declined prefix followed by the accepted
frontier, so no later frontier is evaluated. -/
theorem scan_stops_at_first_accepted (sel : GoalSelector) (pre rest : List Frontier)
    (f : Frontier) (g : Pose)
    (hpre : ∀ x ∈ pre, sel x = none) (hf : sel f = some g) :
    decideGoalTrace sel (pre ++ f :: rest) = (pre ++ [f], some (f, g)) := by
  induction pre with
  | nil => simp [decideGoalTrace, hf]
  | cons x xs ih =>
    have hx : sel x = none := hpre x (List.mem_cons_self x xs)
    have ih2 := ih (fun y hy => hpre y (List.mem_cons_of_mem x hy))
    simp [decideGoalTrace, hx, ih2]

/-- Witness for `scan_stops_at_first_accepted`: frontiers `[fA, fB, fC]`
where only `fB` is acceptable — the scan evaluates `fA` and `fB` only and
commits `fB`'s goal. -/
theorem scan_stops_at_first_accepted_witness :
    (∀ x ∈ [fA], acceptSecond x = none) ∧ acceptSecond fB = some poseA ∧
    decideGoalTrace acceptSecond ([fA] ++ fB :: [fC]) = ([fA] ++ [fB], some (fB, poseA)) := by
  refine ⟨by decide, by decide,
    scan_stops_at_first_accepted acceptSecond [fA] [fC] fB poseA (by decide) (by decide)⟩

/-- Claim C8: the goal scan is deterministic in the frontier set and the
selector's behaviour: two invocations against an unchanged frontier set, with
the selector behaving identically on its frontiers (unchanged internal
state), yield the same accepted goal. -/
theorem scan_deterministic (sel1 sel2 : GoalSelector) (fs : List Frontier)
    (h : ∀ f ∈ fs, sel1 f = sel2 f) :
    decideGoal sel1 fs = decideGoal sel2 fs := by
  induction fs with
  | nil => rfl
  | cons f rest ih =>
    have hf : sel1 f = sel2 f := h f (List.mem_cons_self f rest)
    have ih2 := ih (fun y hy => h y (List.mem_cons_of_mem f hy))
    simp only [decideGoal, hf, ih2]

/-- Witness for `scan_deterministic`: two syntactically different selectors
that agree on `[fA, fB, fC]` produce the same scan result. -/
theorem scan_deterministic_witness :
    (∀ f ∈ [fA, fB, fC], acceptSecond f = acceptSecondAlt f) ∧
    decideGoal acceptSecond [fA, fB, fC] = decideGoal acceptSecondAlt [fA, fB, fC] :=
  ⟨by decide, scan_deterministic acceptSecond acceptSecondAlt [fA, fB, fC] (by decide)⟩

/-! ### Tick-level claims -/

/-- Claim C2: on every tick while the loop is in the Exploring state (a map
has been received, exploration not finished), the loop body calls
`robot.refreshPose()`, whatever the other oracle results are. -/
theorem exploring_tick_refreshes_pose (sel : GoalSelector) (s : LoopState) (i : TickInput)
    (hm : i.mapReceived = true) (hfin : s.exploration_finished = false) :
    (spinTick sel s i).2.poseRefreshAttempted = true := by
  cases hp : i.poseOk <;>
    cases hr : i.replanVerdict <;>
      cases hft : s.first_time <;>
        cases hscan : decideGoal sel i.frontiers <;>
          simp [spinTick, poseFailTick, hm, hfin, hp, hr, hft, hscan]

/-- Witness for `exploring_tick_refreshes_pose` at a concrete Exploring tick. -/
theorem exploring_tick_refreshes_pose_witness :
    poseFailInput.mapReceived = true ∧
    initLoopState.exploration_finished = false ∧
    (spinTick declineAll initLoopState poseFailInput).2.poseRefreshAttempted = true :=
  ⟨rfl, rfl, exploring_tick_refreshes_pose declineAll initLoopState poseFailInput rfl rfl⟩

/-- Claim C5: on a tick where the bootstrap flag `first_time` is still set
(the first successful tick after entering Exploring), a successful pose
refresh always leads to a goal scan, whatever `replaner.replan()` returned:
the scan condition is `replan() || first_time`. -/
theorem bootstrap_tick_always_scans (sel : GoalSelector) (s : LoopState) (i : TickInput)
    (hm : i.mapReceived = true) (hfin : s.exploration_finished = false)
    (hft : s.first_time = true) (hp : i.poseOk = true) :
    (spinTick sel s i).2.scanAttempted = true := by
  cases hscan : decideGoal sel i.frontiers <;>
    simp [spinTick, hm, hfin, hft, hp, hscan]

/-- Witness for `bootstrap_tick_always_scans`: first Exploring tick with a
false replanning verdict still scans. -/
theorem bootstrap_tick_always_scans_witness :
    goodInput.replanVerdict = false ∧
    (spinTick acceptAll initLoopState goodInput).2.scanAttempted = true :=
  ⟨rfl, bootstrap_tick_always_scans acceptAll initLoopState goodInput rfl rfl rfl rfl⟩

/-- Claim C7: a tick in the Exploring state on which the pose refresh fails
performs no dispatch, no cancellation and no scan, only logs a warning, and
leaves the loop state (the flags `first_time`, `exploration_finished`, the
shutdown request) exactly unchanged.  The frontier set is only ever written
by the `getFrontiers` callback, never by the loop body. -/
theorem pose_failure_tick_changes_nothing (sel : GoalSelector) (s : LoopState) (i : TickInput)
    (hm : i.mapReceived = true) (hfin : s.exploration_finished = false)
    (hp : i.poseOk = false) :
    spinTick sel s i = (s, poseFailTick) := by
  simp [spinTick, hm, hfin, hp]

/-- Witness for `pose_failure_tick_changes_nothing` at a concrete tick. -/
theorem pose_failure_tick_changes_nothing_witness :
    spinTick acceptAll initLoopState poseFailInput = (initLoopState, poseFailTick) :=
  pose_failure_tick_changes_nothing acceptAll initLoopState poseFailInput rfl rfl rfl

/-! ### Loop-level claims -/

/-- Claim C3 (counterexample): configuring the unrecognized goal-selector
name `"nearest"` makes startup report the configuration error, yet the
process still enters the control loop and executes a tick — refuting the
claim that no tick is ever executed after a configuration error. -/
theorem bad_selector_name_still_runs_loop :
    (spinRun (some "nearest") declineAll initLoopState [poseFailInput]).1 = true ∧
    ((spinRun (some "nearest") declineAll initLoopState [poseFailInput]).2).length = 1 := by
  refine ⟨rfl, rfl⟩

/-- Claim C3 (amended): with an unrecognized goal-selector name, startup
reports a configuration error (`ROS_ERROR`) but control still falls through
into the main loop, which keeps executing ticks; the missing selector only
matters if a goal scan is reached. -/
theorem bad_selector_name_reports_but_enters_loop (name : String)
    (midSel : GoalSelector) (i : TickInput)
    (hn : ¬ name = "mid_point") (hm : i.mapReceived = true) (hp : i.poseOk = false) :
    (spinRun (some name) midSel initLoopState [i]).1 = true ∧
    (spinRun (some name) midSel initLoopState [i]).2 = [(i, poseFailTick)] := by
  constructor
  · simp [spinRun, setupGoalSelector, hn]
  · simp [spinRun, setupGoalSelector, hn, spinLoop, initLoopState, spinTick,
          poseFailTick, hm, hp]

/-- Witness for `bad_selector_name_reports_but_enters_loop` with the
unrecognized name `"largest_area"`. -/
theorem bad_selector_name_reports_but_enters_loop_witness :
    (¬ ("largest_area" : String) = "mid_point") ∧
    ((spinRun (some "largest_area") acceptAll initLoopState [poseFailInput]).1 = true ∧
     (spinRun (some "largest_area") acceptAll initLoopState [poseFailInput]).2 =
       [(poseFailInput, poseFailTick)]) :=
  ⟨by decide, bad_selector_name_reports_but_enters_loop "largest_area" acceptAll
    poseFailInput (by decide) rfl rfl⟩

/-- Claim C4: once `exploration_finished` holds, the next processed tick runs
`finish()` and the loop stops: over the whole remainder of the run no tick
dispatches a goal, and exactly one cancellation is issued iff the robot was
moving at the moment of the transition. -/
theorem finish_cancels_once_and_stops (sel : GoalSelector) (s : LoopState)
    (i : TickInput) (rest : List TickInput)
    (hfin : s.exploration_finished = true) (hsd : s.shutdown = false)
    (hm : i.mapReceived = true) :
    (∀ p ∈ (spinLoop sel s (i :: rest)).2, p.2.dispatched = none) ∧
    ((spinLoop sel s (i :: rest)).2.countP fun p => p.2.canceled) =
      (if i.isMoving then 1 else 0) := by
  have htick : spinTick sel s i = ({ s with shutdown := true }, finishTick i.isMoving) := by
    simp [spinTick, hm, hfin]
  have hrun : spinLoop sel s (i :: rest) =
      ({ s with shutdown := true }, [(i, finishTick i.isMoving)]) := by
    rw [spinLoop]
    simp only [hsd, Bool.false_eq_true, if_false, htick]
    rw [spinLoop_of_shutdown sel { s with shutdown := true } rest rfl]
    simp [finishTick]
  rw [hrun]
  constructor
  · intro p hp
    simp only [List.mem_singleton] at hp
    rw [hp]
    rfl
  · cases him : i.isMoving <;>
      simp [List.countP_cons, List.countP_nil, finishTick, him]

/-- Witness for `finish_cancels_once_and_stops`: a finished state with the
robot moving — the single remaining tick cancels once and dispatches
nothing. -/
theorem finish_cancels_once_and_stops_witness :
    finishedState.exploration_finished = true ∧ finishedState.shutdown = false ∧
    movingInput.mapReceived = true ∧
    ((∀ p ∈ (spinLoop declineAll finishedState (movingInput :: [replanInput])).2,
        p.2.dispatched = none) ∧
     ((spinLoop declineAll finishedState (movingInput :: [replanInput])).2.countP
        fun p => p.2.canceled) = (if movingInput.isMoving then 1 else 0)) :=
  ⟨rfl, rfl, rfl,
    finish_cancels_once_and_stops declineAll finishedState movingInput [replanInput]
      rfl rfl rfl⟩

/-- Claim C9: ticks on which no map has been received or the pose refresh
fails never clear the bootstrap flag `first_time` and never scan, so after
any number of consecutive such ticks the forced bootstrap replan is still
pending and the next successful tick attempts the first goal scan. -/
theorem bootstrap_flag_survives_failed_ticks (sel : GoalSelector) (s : LoopState)
    (inputs : List TickInput) (j : TickInput)
    (h : ∀ i ∈ inputs, i.mapReceived = false ∨ i.poseOk = false)
    (hfin : s.exploration_finished = false) (hsd : s.shutdown = false)
    (hft : s.first_time = true) (hmj : j.mapReceived = true) (hpj : j.poseOk = true) :
    (spinLoop sel s inputs).1.first_time = true ∧
    (∀ p ∈ (spinLoop sel s inputs).2, p.2.scanAttempted = false) ∧
    (spinTick sel (spinLoop sel s inputs).1 j).2.scanAttempted = true := by
  have hrun := spinLoop_skipped_ticks sel inputs s hfin hsd h
  rw [hrun]
  refine ⟨hft, ?_, ?_⟩
  · intro p hp
    simp only [List.mem_map] at hp
    obtain ⟨i, _, hpi⟩ := hp
    rw [← hpi]
    cases hm : i.mapReceived <;> simp [hm, poseFailTick, silentTick]
  · cases hscan : decideGoal sel j.frontiers <;>
      simp [spinTick, hmj, hfin, hft, hpj, hscan]

/-- Witness for `bootstrap_flag_survives_failed_ticks`: one waiting tick and
one pose-failure tick leave the bootstrap pending; the following successful
tick scans. -/
theorem bootstrap_flag_survives_failed_ticks_witness :
    (∀ i ∈ [noMapInput, poseFailInput], i.mapReceived = false ∨ i.poseOk = false) ∧
    ((spinLoop acceptAll initLoopState [noMapInput, poseFailInput]).1.first_time = true ∧
     (∀ p ∈ (spinLoop acceptAll initLoopState [noMapInput, poseFailInput]).2,
        p.2.scanAttempted = false) ∧
     (spinTick acceptAll (spinLoop acceptAll initLoopState [noMapInput, poseFailInput]).1
        goodInput).2.scanAttempted = true) :=
  ⟨by decide,
    bootstrap_flag_survives_failed_ticks acceptAll initLoopState
      [noMapInput, poseFailInput] goodInput (by decide) rfl rfl rfl rfl rfl⟩

/-- Claim C10: in any run of the loop, every goal dispatch that happens
strictly after an earlier goal dispatch occurs on a tick whose replanning
verdict (`replaner.replan()`) is true: the first dispatch cleared
`first_time`, so later dispatches can only enter the scan branch through
`replan()`. -/
theorem later_dispatch_needs_replan_verdict (sel : GoalSelector) (s : LoopState)
    (inputs : List TickInput) (pre : List (TickInput × TickOutput))
    (p : TickInput × TickOutput) (mid post : List (TickInput × TickOutput))
    (q : TickInput × TickOutput)
    (hrun : (spinLoop sel s inputs).2 = pre ++ p :: (mid ++ q :: post))
    (hp : p.2.dispatched.isSome = true) (hq : q.2.dispatched.isSome = true) :
    q.1.replanVerdict = true :=
  spinLoop_suffix_after_dispatch sel inputs s pre p (mid ++ q :: post) hrun hp q
    (by simp) hq

/-- Witness for `later_dispatch_needs_replan_verdict`: a two-tick run whose
ticks both dispatch; the second tick indeed has a true replanning verdict. -/
theorem later_dispatch_needs_replan_verdict_witness :
    (spinLoop acceptAll initLoopState [goodInput, replanInput]).2 =
      [] ++ (goodInput, dispatchOut) :: ([] ++ (replanInput, dispatchOut) :: []) ∧
    (goodInput, dispatchOut).2.dispatched.isSome = true ∧
    (replanInput, dispatchOut).2.dispatched.isSome = true ∧
    replanInput.replanVerdict = true :=
  ⟨by decide, by decide, by decide,
    later_dispatch_needs_replan_verdict acceptAll initLoopState [goodInput, replanInput]
      [] (goodInput, dispatchOut) [] [] (replanInput, dispatchOut)
      (by decide) (by decide) (by decide)⟩

end CamExploration
